import Mathlib

/-!
Verification of the clinical rule engine of an AI-based hypertension
clinical decision support system (backend/utils/preprocess.py).

The Python module is embedded shallowly:
- `classify_bp` (AHA/ACC 2017 blood-pressure staging),
- `identify_risk_factors` and `calculate_risk_score` (threshold ladders),
- `calculate_confidence` / `classify_confidence_band` (square-root-curved
  confidence mapping),
- `validate_inputs` (presence / type / range / cross-field validation).

Python ints are modelled as `ℤ`, Python floats as exact rationals `ℚ`
(the thresholds and inputs of interest are exactly representable, and all
comparisons in the source are order comparisons that agree with the exact
model), except in `calculate_confidence`, whose square root is modelled
over `ℝ`.  Python dictionaries of patient data are modelled by `InputData`
with one optional dynamically-typed field per required key.
-/

namespace CDSS

/-- Result record of `classify_bp`: the Python function returns a dict with
string values for keys `category`, `stage`, `color`. -/
structure BPResult where
  category : String
  stage : String
  color : String
deriving DecidableEq, Repr

/-- Embedding of `classify_bp(systolic, diastolic)` from preprocess.py: an if-chain
evaluated top-down, first match wins, with an `Unknown` fallback. -/
def classify_bp (systolic diastolic : ℤ) : BPResult :=
  -- Hypertensive crisis (emergency)
  if systolic > 180 ∨ diastolic > 120 then
    ⟨"Hypertensive Crisis", "crisis", "darkred"⟩
  -- Stage 2 Hypertension
  else if systolic ≥ 140 ∨ diastolic ≥ 90 then
    ⟨"High BP – Stage 2", "stage2", "red"⟩
  -- Stage 1 Hypertension
  else if (systolic ≥ 130 ∧ systolic ≤ 139) ∨ (diastolic ≥ 80 ∧ diastolic ≤ 89) then
    ⟨"High BP – Stage 1", "stage1", "orange"⟩
  -- Elevated
  else if systolic ≥ 120 ∧ systolic ≤ 129 ∧ diastolic < 80 then
    ⟨"Elevated", "elevated", "yellow"⟩
  -- Normal
  else if systolic < 120 ∧ diastolic < 80 then
    ⟨"Normal", "normal", "green"⟩
  -- Fallback (unknown)
  else
    ⟨"Unknown", "unknown", "gray"⟩

/-- The five real categories and the fallback, as record values. -/
def crisisResult : BPResult := ⟨"Hypertensive Crisis", "crisis", "darkred"⟩

def stage2Result : BPResult := ⟨"High BP – Stage 2", "stage2", "red"⟩

def stage1Result : BPResult := ⟨"High BP – Stage 1", "stage1", "orange"⟩

def elevatedResult : BPResult := ⟨"Elevated", "elevated", "yellow"⟩

def normalResult : BPResult := ⟨"Normal", "normal", "green"⟩

def unknownResult : BPResult := ⟨"Unknown", "unknown", "gray"⟩

/-- Embedding of `identify_risk_factors(age, bmi, cholesterol, systolic, diastolic)`
from preprocess.py: five independent descending threshold ladders, each
appending at most one string, in source order systolic, diastolic, age,
bmi, cholesterol.  `bmi` is a Python float, modelled as `ℚ`. -/
def identify_risk_factors (age : ℤ) (bmi : ℚ) (cholesterol systolic diastolic : ℤ) :
    List String :=
  let risk_factors : List String := []
  -- Systolic BP — strongest predictor
  let risk_factors := risk_factors ++
    (if systolic ≥ 180 then ["Hypertensive-crisis-level systolic BP"]
     else if systolic ≥ 140 then ["Stage 2 systolic hypertension"]
     else if systolic ≥ 130 then ["Stage 1 systolic hypertension"]
     else if systolic ≥ 120 then ["Elevated systolic BP"]
     else [])
  -- Diastolic BP
  let risk_factors := risk_factors ++
    (if diastolic ≥ 120 then ["Hypertensive-crisis-level diastolic BP"]
     else if diastolic ≥ 90 then ["Stage 2 diastolic hypertension"]
     else if diastolic ≥ 80 then ["Stage 1 diastolic hypertension"]
     else [])
  -- Age factor
  let risk_factors := risk_factors ++
    (if age ≥ 70 then ["Advanced age (≥70 yrs)"]
     else if age ≥ 60 then ["Senior age (≥60 yrs)"]
     else if age ≥ 45 then ["Middle age (≥45 yrs)"]
     else [])
  -- BMI
  let risk_factors := risk_factors ++
    (if bmi ≥ 35 then ["Severe obesity (BMI ≥35)"]
     else if bmi ≥ 30 then ["Obesity (BMI ≥30)"]
     else if bmi ≥ 25 then ["Overweight (BMI ≥25)"]
     else [])
  -- Total Cholesterol
  let risk_factors := risk_factors ++
    (if cholesterol ≥ 280 then ["Very high cholesterol (≥280 mg/dL)"]
     else if cholesterol ≥ 240 then ["High cholesterol (≥240 mg/dL)"]
     else if cholesterol ≥ 200 then ["Borderline-high cholesterol (≥200 mg/dL)"]
     else [])
  risk_factors

/-- Embedding of `calculate_risk_score(age, bmi, cholesterol, systolic, diastolic)`
from preprocess.py: additive weights over the same ladders, then clamped to
[0, 100] by `min(100, max(0, risk))`. -/
def calculate_risk_score (age : ℤ) (bmi : ℚ) (cholesterol systolic diastolic : ℤ) : ℤ :=
  let risk : ℤ := 0
  -- Systolic BP — strongest predictor
  let risk := risk +
    (if systolic ≥ 180 then 42
     else if systolic ≥ 140 then 35
     else if systolic ≥ 130 then 22
     else if systolic ≥ 120 then 9
     else 0)
  -- Diastolic BP
  let risk := risk +
    (if diastolic ≥ 120 then 30
     else if diastolic ≥ 90 then 22
     else if diastolic ≥ 80 then 12
     else 0)
  -- Age factor
  let risk := risk +
    (if age ≥ 70 then 14
     else if age ≥ 60 then 10
     else if age ≥ 45 then 6
     else 0)
  -- BMI
  let risk := risk +
    (if bmi ≥ 35 then 12
     else if bmi ≥ 30 then 8
     else if bmi ≥ 25 then 4
     else 0)
  -- Total Cholesterol
  let risk := risk +
    (if cholesterol ≥ 280 then 10
     else if cholesterol ≥ 240 then 7
     else if cholesterol ≥ 200 then 3
     else 0)
  -- Clamp to [0, 100]
  min 100 (max 0 risk)

/-! Spec-side model of the risk scorer (spec §4.4): one named function per
dimension ladder, written from the words of the spec, to be compared with
`calculate_risk_score` translated from the source. -/

/-- Spec §4.4: systolic weights 42/35/22/9 for ≥180/≥140/≥130/≥120, else 0. -/
def sysPoints (systolic : ℤ) : ℤ :=
  if systolic ≥ 180 then 42
  else if systolic ≥ 140 then 35
  else if systolic ≥ 130 then 22
  else if systolic ≥ 120 then 9
  else 0

/-- Spec §4.4: diastolic weights 30/22/12 for ≥120/≥90/≥80, else 0. -/
def diaPoints (diastolic : ℤ) : ℤ :=
  if diastolic ≥ 120 then 30
  else if diastolic ≥ 90 then 22
  else if diastolic ≥ 80 then 12
  else 0

/-- Spec §4.4: age weights 14/10/6 for ≥70/≥60/≥45, else 0. -/
def agePoints (age : ℤ) : ℤ :=
  if age ≥ 70 then 14
  else if age ≥ 60 then 10
  else if age ≥ 45 then 6
  else 0

/-- Spec §4.4: bmi weights 12/8/4 for ≥35/≥30/≥25, else 0. -/
def bmiPoints (bmi : ℚ) : ℤ :=
  if bmi ≥ 35 then 12
  else if bmi ≥ 30 then 8
  else if bmi ≥ 25 then 4
  else 0

/-- Spec §4.4: cholesterol weights 10/7/3 for ≥280/≥240/≥200, else 0. -/
def cholPoints (cholesterol : ℤ) : ℤ :=
  if cholesterol ≥ 280 then 10
  else if cholesterol ≥ 240 then 7
  else if cholesterol ≥ 200 then 3
  else 0

/-- Spec §4.4: the additive model — at most one weight per dimension,
summed, clamped to [0, 100]. -/
def risk_score_spec (age : ℤ) (bmi : ℚ) (cholesterol systolic diastolic : ℤ) : ℤ :=
  min 100 (max 0
    (sysPoints systolic + diaPoints diastolic + agePoints age +
      bmiPoints bmi + cholPoints cholesterol))

/-- The risk-factor strings contributed by the systolic ladder. -/
def sysFactors (systolic : ℤ) : List String :=
  if systolic ≥ 180 then ["Hypertensive-crisis-level systolic BP"]
  else if systolic ≥ 140 then ["Stage 2 systolic hypertension"]
  else if systolic ≥ 130 then ["Stage 1 systolic hypertension"]
  else if systolic ≥ 120 then ["Elevated systolic BP"]
  else []

/-- The risk-factor strings contributed by the diastolic ladder. -/
def diaFactors (diastolic : ℤ) : List String :=
  if diastolic ≥ 120 then ["Hypertensive-crisis-level diastolic BP"]
  else if diastolic ≥ 90 then ["Stage 2 diastolic hypertension"]
  else if diastolic ≥ 80 then ["Stage 1 diastolic hypertension"]
  else []

/-- The risk-factor strings contributed by the age ladder. -/
def ageFactors (age : ℤ) : List String :=
  if age ≥ 70 then ["Advanced age (≥70 yrs)"]
  else if age ≥ 60 then ["Senior age (≥60 yrs)"]
  else if age ≥ 45 then ["Middle age (≥45 yrs)"]
  else []

/-- The risk-factor strings contributed by the bmi ladder. -/
def bmiFactors (bmi : ℚ) : List String :=
  if bmi ≥ 35 then ["Severe obesity (BMI ≥35)"]
  else if bmi ≥ 30 then ["Obesity (BMI ≥30)"]
  else if bmi ≥ 25 then ["Overweight (BMI ≥25)"]
  else []

/-- The risk-factor strings contributed by the cholesterol ladder. -/
def cholFactors (cholesterol : ℤ) : List String :=
  if cholesterol ≥ 280 then ["Very high cholesterol (≥280 mg/dL)"]
  else if cholesterol ≥ 240 then ["High cholesterol (≥240 mg/dL)"]
  else if cholesterol ≥ 200 then ["Borderline-high cholesterol (≥200 mg/dL)"]
  else []

/-- Result record of `calculate_confidence`: the Python function returns a
dict with keys `confidence` (float) and `confidenceBand` (string). -/
structure ConfidenceResult where
  confidence : ℝ
  confidenceBand : String

/-- Python `round(x, 1)`: x rounded to one decimal place.  Python rounds
ties half-to-even, but no value this module feeds to `round` is a tie (the
attainable pre-rounding values `60 + sqrt(d/50)*30` are integers or
irrational), so round-to-nearest is an exact model on all reachable
inputs. -/
noncomputable def round1 (x : ℝ) : ℝ := (round (10 * x) : ℤ) / 10

open scoped Classical

/-- Embedding of `classify_confidence_band(confidence)` from preprocess.py. -/
noncomputable def classify_confidence_band (confidence : ℝ) : String :=
  if confidence < 72.0 then "Low"
  else if confidence ≤ 82.0 then "Moderate"
  else "High"

/-- Embedding of `calculate_confidence(probabilities, risk_score)` from preprocess.py.
The `probabilities` array is accepted for API compatibility and never read.
The Python expression `normalised ** 0.5` is `Real.sqrt normalised` (the base is always
nonnegative). -/
noncomputable def calculate_confidence (probabilities : List ℝ) (risk_score : ℤ) :
    ConfidenceResult :=
  let DISPLAY_MIN : ℝ := 60.0
  let DISPLAY_MAX : ℝ := 90.0
  let MAX_DISTANCE : ℝ := 50.0
  let distance : ℝ := |(risk_score : ℝ) - 50|
  let normalised : ℝ := min (distance / MAX_DISTANCE) 1.0
  let curved : ℝ := Real.sqrt normalised
  let confidence : ℝ := round1 (DISPLAY_MIN + curved * (DISPLAY_MAX - DISPLAY_MIN))
  let confidence : ℝ := max DISPLAY_MIN (min DISPLAY_MAX confidence)
  ⟨confidence, classify_confidence_band confidence⟩

/-! Input validation (`validate_inputs`).  The request payload is a Python
dict of dynamically typed values; `PyVal` models the values that matter to
the validator (None, bool, int, float, and a catch-all string case for
non-numeric data), and `InputData` models the dict as one optional slot per
required key (`Option.none` = key absent, `some PyVal.none` = key present
with value None). -/

/-- A dynamically typed Python value as seen by the validator. -/
inductive PyVal where
  | none : PyVal
  | bool : Bool → PyVal
  | int : ℤ → PyVal
  | float : ℚ → PyVal
  | str : String → PyVal
deriving DecidableEq, Repr

/-- The request dict, one optional slot per required field. -/
structure InputData where
  age : Option PyVal
  bmi : Option PyVal
  cholesterol : Option PyVal
  systolic : Option PyVal
  diastolic : Option PyVal
deriving DecidableEq, Repr

/-- Constant `REQUIRED_FIELDS` from preprocess.py. -/
def REQUIRED_FIELDS : List String := ["age", "bmi", "cholesterol", "systolic", "diastolic"]

/-- The dict lookup `data[field]` (`Option.none` when the key is absent). -/
def getField (data : InputData) (field : String) : Option PyVal :=
  if field = "age" then data.age
  else if field = "bmi" then data.bmi
  else if field = "cholesterol" then data.cholesterol
  else if field = "systolic" then data.systolic
  else if field = "diastolic" then data.diastolic
  else Option.none

/-- Python `isinstance(v, bool)`. -/
def isinstance_bool : PyVal → Bool
  | .bool _ => true
  | _ => false

/-- Python `isinstance(v, int)`; `bool` is a subclass of `int` in Python. -/
def isinstance_int : PyVal → Bool
  | .int _ => true
  | .bool _ => true
  | _ => false

/-- Python `isinstance(v, float)`. -/
def isinstance_float : PyVal → Bool
  | .float _ => true
  | _ => false

/-- The exact numeric value of a numeric `PyVal` (Python compares ints,
floats and bools numerically; `True == 1`, `False == 0`).  Non-numeric
values never reach a comparison in the validator. -/
def toRat : PyVal → ℚ
  | .int n => (n : ℚ)
  | .float q => q
  | .bool b => if b then 1 else 0
  | _ => 0

/-- Python `str()` of a `PyVal`, used by the f-string of the range error
message (an integral float prints with a trailing `.0`). -/
def pyStr : PyVal → String
  | .int n => toString n
  | .float q => if q.den = 1 then toString q.num ++ ".0" else toString q
  | .bool b => if b then "True" else "False"
  | .none => "None"
  | .str s => s

/-- Constant `FIELD_RANGES` from preprocess.py; the age/cholesterol/systolic/diastolic
bounds are Python ints, the bmi bounds are Python floats. -/
def FIELD_RANGES (field : String) : PyVal × PyVal :=
  if field = "age" then (.int 1, .int 120)
  else if field = "bmi" then (.float 10, .float 70)
  else if field = "cholesterol" then (.int 50, .int 600)
  else if field = "systolic" then (.int 60, .int 300)
  else (.int 30, .int 200)

/-- First-error-wins combination of two checks: models the early `return`
of the validator loops. -/
def firstSome (a b : Option String) : Option String :=
  match a with
  | some e => some e
  | Option.none => b

/-- Loop body of the missing-field check: `field not in data` and
`data[field] is None` both return the same message. -/
def missingErr (data : InputData) (field : String) : Option String :=
  if getField data field = Option.none ∨ getField data field = some PyVal.none then
    some ("Missing required field: " ++ field)
  else Option.none

/-- Loop body of the type check:
`isinstance(v, bool) or not isinstance(v, (int, float))`. -/
def typeErr (data : InputData) (field : String) : Option String :=
  let v := (getField data field).getD PyVal.none
  if isinstance_bool v = true ∨ (isinstance_int v = false ∧ isinstance_float v = false) then
    some ("Invalid value for \x27" ++ field ++ "\x27: must be a number")
  else Option.none

/-- The age integrality error message. -/
def AGE_MSG : String := "Invalid value for \x27age\x27: must be a whole number"

/-- The cross-field error message. -/
def CROSS_MSG : String := "diastolic must be less than systolic"

/-- The out-of-range error message for a field. -/
def rangeMsg (field : String) : String :=
  "Invalid value for \x27" ++ field ++ "\x27: must be between " ++
    pyStr (FIELD_RANGES field).1 ++ " and " ++ pyStr (FIELD_RANGES field).2

/-- Loop body of the range check; for age the value must in addition be a
Python int (`isinstance(value, int)`), checked before the bounds. -/
def rangeErr (data : InputData) (field : String) : Option String :=
  let value := (getField data field).getD PyVal.none
  if field = "age" ∧ isinstance_int value = false then
    some AGE_MSG
  else if toRat value < toRat (FIELD_RANGES field).1 ∨
      toRat (FIELD_RANGES field).2 < toRat value then
    some (rangeMsg field)
  else Option.none

/-- The missing-field loop over `REQUIRED_FIELDS`, first error wins. -/
def checkMissing (data : InputData) : Option String :=
  REQUIRED_FIELDS.foldr (fun field acc => firstSome (missingErr data field) acc)
    Option.none

/-- The type-check loop over `REQUIRED_FIELDS`, first error wins. -/
def checkType (data : InputData) : Option String :=
  REQUIRED_FIELDS.foldr (fun field acc => firstSome (typeErr data field) acc)
    Option.none

/-- The range-check loop over `REQUIRED_FIELDS`, first error wins. -/
def checkRange (data : InputData) : Option String :=
  REQUIRED_FIELDS.foldr (fun field acc => firstSome (rangeErr data field) acc)
    Option.none

/-- Embedding of `validate_inputs(data)` from preprocess.py: missing-field loop, then
type loop, then range loop (with the per-age integrality check), then the
cross-field comparison `data["diastolic"] >= data["systolic"]`. -/
def validate_inputs (data : InputData) : Bool × Option String :=
  match checkMissing data with
  | some err => (false, some err)
  | Option.none =>
    match checkType data with
    | some err => (false, some err)
    | Option.none =>
      match checkRange data with
      | some err => (false, some err)
      | Option.none =>
        -- Cross-field validation: diastolic must be less than systolic
        if toRat ((getField data "diastolic").getD PyVal.none) ≥
            toRat ((getField data "systolic").getD PyVal.none) then
          (false, some CROSS_MSG)
        else (true, Option.none)

/-- The notion of an "integral value" used by the spec: a number that is mathematically
a whole number, regardless of its Python type (so the float 30.0 qualifies,
and the float 30.5 does not). -/
def isIntegralValue : PyVal → Bool
  | .int _ => true
  | .bool _ => true
  | .float q => q.den == 1
  | _ => false

/-- Payload with age = 30.0 (a float carrying an integral value) and all
other fields valid. -/
def exAgeFloatWhole : InputData :=
  ⟨some (.float 30), some (.float 22), some (.int 180), some (.int 110), some (.int 70)⟩

/-- Payload with age = 30.5 (the rational 61/2, written in normal form) and
all other fields valid. -/
def exAgeHalf : InputData :=
  ⟨some (.float ⟨61, 2, by decide, by decide⟩), some (.float 22), some (.int 180),
    some (.int 110), some (.int 70)⟩

/-- Fully valid payload with age = 30 (a Python int). -/
def exAge30 : InputData :=
  ⟨some (.int 30), some (.float 22), some (.int 180), some (.int 110), some (.int 70)⟩

/-- Fully valid payload with a non-integral bmi = 22.5 (the rational 45/2,
written in normal form). -/
def exBmiFrac : InputData :=
  ⟨some (.int 30), some (.float ⟨45, 2, by decide, by decide⟩), some (.int 180),
    some (.int 110), some (.int 70)⟩

/-- Payload with equal systolic and diastolic (90/90), all per-field checks
passing. -/
def exEqualBP : InputData :=
  ⟨some (.int 30), some (.float 22), some (.int 180), some (.int 90), some (.int 90)⟩

end CDSS

namespace CDSS

/-- Claim C2: on every pair of integer inputs, `classify_bp` lands in one of
the five named categories; the `Unknown` fallback branch is unreachable. -/
theorem classify_bp_total_never_unknown (systolic diastolic : ℤ) :
    (classify_bp systolic diastolic = crisisResult ∨
     classify_bp systolic diastolic = stage2Result ∨
     classify_bp systolic diastolic = stage1Result ∨
     classify_bp systolic diastolic = elevatedResult ∨
     classify_bp systolic diastolic = normalResult) ∧
    classify_bp systolic diastolic ≠ unknownResult := by
  unfold classify_bp crisisResult stage2Result stage1Result elevatedResult
    normalResult unknownResult
  split_ifs with h1 h2 h3 h4 h5
  · exact ⟨Or.inl rfl, by decide⟩
  · exact ⟨Or.inr (Or.inl rfl), by decide⟩
  · exact ⟨Or.inr (Or.inr (Or.inl rfl)), by decide⟩
  · exact ⟨Or.inr (Or.inr (Or.inr (Or.inl rfl))), by decide⟩
  · exact ⟨Or.inr (Or.inr (Or.inr (Or.inr rfl))), by decide⟩
  · exact absurd trivial (by omega)

/-- Claim C1 (counterexample): the claim says `classify_bp 125 85` is the
`Unknown` category; in the code, diastolic 85 satisfies the Stage 1 rule
`80 ≤ diastolic ≤ 89`, so the result is Stage 1, not `Unknown`. -/
theorem classify_bp_125_85_not_unknown :
    classify_bp 125 85 ≠ unknownResult := by decide

/-- Claim C1 (amended): for systolic = 125 and diastolic = 85, `classify_bp`
returns the High BP – Stage 1 category (stage "stage1", color orange),
because diastolic 85 lies inside the Stage 1 diastolic range [80, 89]; the
combination is not a gap of the guideline table. -/
theorem classify_bp_125_85_stage1 :
    classify_bp 125 85 = stage1Result := by decide

/-- Claim C7: the rules of `classify_bp` are evaluated top-down with first
match winning, and the crisis rule is strict: (180,80) is Stage 2, (181,80)
is crisis, (139,70) is Stage 1, (140,70) is Stage 2; in general the crisis
category is returned exactly when systolic > 180 or diastolic > 120. -/
theorem classify_bp_boundary_cases :
    classify_bp 180 80 = stage2Result ∧
    classify_bp 181 80 = crisisResult ∧
    classify_bp 139 70 = stage1Result ∧
    classify_bp 140 70 = stage2Result ∧
    (∀ systolic diastolic : ℤ,
      classify_bp systolic diastolic = crisisResult ↔
        (systolic > 180 ∨ diastolic > 120)) := by
  refine ⟨by decide, by decide, by decide, by decide, ?_⟩
  intro s d
  unfold classify_bp crisisResult
  split_ifs with h1 h2 h3 h4 h5
  · simp [h1]
  all_goals simp only [BPResult.mk.injEq]
  · constructor
    · rintro ⟨h, -⟩; exact absurd h (by decide)
    · exact fun h => absurd h h1
  · constructor
    · rintro ⟨h, -⟩; exact absurd h (by decide)
    · exact fun h => absurd h h1
  · constructor
    · rintro ⟨h, -⟩; exact absurd h (by decide)
    · exact fun h => absurd h h1
  · constructor
    · rintro ⟨h, -⟩; exact absurd h (by decide)
    · exact fun h => absurd h h1
  · constructor
    · rintro ⟨h, -⟩; exact absurd h (by decide)
    · exact fun h => absurd h h1

/-! Helper lemmas about the threshold ladders, shared by the risk-score and
risk-factor theorems. -/

theorem calculate_risk_score_eq_spec (a : ℤ) (b : ℚ) (c s d : ℤ) :
    calculate_risk_score a b c s d = risk_score_spec a b c s d := by
  simp only [calculate_risk_score, risk_score_spec, sysPoints, diaPoints,
    agePoints, bmiPoints, cholPoints, zero_add]

theorem identify_risk_factors_eq_append (a : ℤ) (b : ℚ) (c s d : ℤ) :
    identify_risk_factors a b c s d =
      sysFactors s ++ diaFactors d ++ ageFactors a ++ bmiFactors b ++
        cholFactors c := by
  simp only [identify_risk_factors, sysFactors, diaFactors, ageFactors,
    bmiFactors, cholFactors, List.nil_append]

theorem sysPoints_bounds (s : ℤ) : 0 ≤ sysPoints s ∧ sysPoints s ≤ 42 := by
  unfold sysPoints; split_ifs <;> norm_num

theorem diaPoints_bounds (d : ℤ) : 0 ≤ diaPoints d ∧ diaPoints d ≤ 30 := by
  unfold diaPoints; split_ifs <;> norm_num

theorem agePoints_bounds (a : ℤ) : 0 ≤ agePoints a ∧ agePoints a ≤ 14 := by
  unfold agePoints; split_ifs <;> norm_num

theorem bmiPoints_bounds (b : ℚ) : 0 ≤ bmiPoints b ∧ bmiPoints b ≤ 12 := by
  unfold bmiPoints; split_ifs <;> norm_num

theorem cholPoints_bounds (c : ℤ) : 0 ≤ cholPoints c ∧ cholPoints c ≤ 10 := by
  unfold cholPoints; split_ifs <;> norm_num

theorem sysPoints_zero_iff (s : ℤ) : sysPoints s = 0 ↔ sysFactors s = [] := by
  unfold sysPoints sysFactors; split_ifs <;> simp

theorem diaPoints_zero_iff (d : ℤ) : diaPoints d = 0 ↔ diaFactors d = [] := by
  unfold diaPoints diaFactors; split_ifs <;> simp

theorem agePoints_zero_iff (a : ℤ) : agePoints a = 0 ↔ ageFactors a = [] := by
  unfold agePoints ageFactors; split_ifs <;> simp

theorem bmiPoints_zero_iff (b : ℚ) : bmiPoints b = 0 ↔ bmiFactors b = [] := by
  unfold bmiPoints bmiFactors; split_ifs <;> simp

theorem cholPoints_zero_iff (c : ℤ) : cholPoints c = 0 ↔ cholFactors c = [] := by
  unfold cholPoints cholFactors; split_ifs <;> simp

/-- Claim C3: `calculate_risk_score` is exactly the additive model of the
spec — at most one weight per dimension from the ladders, summed and
clamped to [0, 100] — the unclamped sum never exceeds 108, and the returned
value always lies in [0, 100]. -/
theorem calculate_risk_score_additive_model (a : ℤ) (b : ℚ) (c s d : ℤ) :
    calculate_risk_score a b c s d = risk_score_spec a b c s d ∧
    sysPoints s + diaPoints d + agePoints a + bmiPoints b + cholPoints c ≤ 108 ∧
    0 ≤ calculate_risk_score a b c s d ∧
    calculate_risk_score a b c s d ≤ 100 := by
  have h := calculate_risk_score_eq_spec a b c s d
  have h1 := sysPoints_bounds s
  have h2 := diaPoints_bounds d
  have h3 := agePoints_bounds a
  have h4 := bmiPoints_bounds b
  have h5 := cholPoints_bounds c
  rw [h, risk_score_spec]
  refine ⟨rfl, by omega, by omega, by omega⟩

/-- Claim C10: the risk score is 0 exactly when the risk-factor list is
empty — each dimension contributes a positive weight exactly when it
appends a risk-factor string, since both functions use the same ladders. -/
theorem risk_score_zero_iff_no_risk_factors (a : ℤ) (b : ℚ) (c s d : ℤ) :
    calculate_risk_score a b c s d = 0 ↔
      identify_risk_factors a b c s d = [] := by
  rw [calculate_risk_score_eq_spec, identify_risk_factors_eq_append,
    risk_score_spec]
  have h1 := sysPoints_bounds s
  have h2 := diaPoints_bounds d
  have h3 := agePoints_bounds a
  have h4 := bmiPoints_bounds b
  have h5 := cholPoints_bounds c
  have e1 := sysPoints_zero_iff s
  have e2 := diaPoints_zero_iff d
  have e3 := agePoints_zero_iff a
  have e4 := bmiPoints_zero_iff b
  have e5 := cholPoints_zero_iff c
  constructor
  · intro h
    have : sysPoints s = 0 ∧ diaPoints d = 0 ∧ agePoints a = 0 ∧
        bmiPoints b = 0 ∧ cholPoints c = 0 := by omega
    simp [e1.mp this.1, e2.mp this.2.1, e3.mp this.2.2.1,
      e4.mp this.2.2.2.1, e5.mp this.2.2.2.2]
  · intro h
    simp only [List.append_eq_nil] at h
    obtain ⟨⟨⟨⟨f1, f2⟩, f3⟩, f4⟩, f5⟩ := h
    have := e1.mpr f1
    have := e2.mpr f2
    have := e3.mpr f3
    have := e4.mpr f4
    have := e5.mpr f5
    omega

/-! Helper lemmas for the confidence estimator. -/

theorem round1_intCast (n : ℤ) : round1 (n : ℝ) = (n : ℝ) := by
  unfold round1
  rw [show (10 : ℝ) * (n : ℝ) = ((10 * n : ℤ) : ℝ) by push_cast; ring,
    round_intCast]
  push_cast
  ring

theorem classify_confidence_band_iff (x : ℝ) :
    (classify_confidence_band x = "Low" ↔ x < 72.0) ∧
    (classify_confidence_band x = "Moderate" ↔ 72.0 ≤ x ∧ x ≤ 82.0) ∧
    (classify_confidence_band x = "High" ↔ 82.0 < x) := by
  unfold classify_confidence_band
  split_ifs with h1 h2
  · refine ⟨iff_of_true rfl h1, iff_of_false (by decide) ?_,
      iff_of_false (by decide) ?_⟩
    · rintro ⟨h, -⟩; linarith
    · intro h; linarith
  · push_neg at h1
    refine ⟨iff_of_false (by decide) ?_, iff_of_true rfl ⟨h1, h2⟩,
      iff_of_false (by decide) ?_⟩
    · intro h; linarith
    · intro h; linarith
  · push_neg at h1 h2
    refine ⟨iff_of_false (by decide) ?_, iff_of_false (by decide) ?_,
      iff_of_true rfl h2⟩
    · intro h; linarith
    · rintro ⟨-, h⟩; linarith

/-- Claim C4: for every risk score in [0, 100], the returned confidence lies
in [60.0, 90.0], and the band is `Low` exactly when confidence < 72.0,
`Moderate` exactly when 72.0 ≤ confidence ≤ 82.0 (so 72.0 and 82.0 both map
to `Moderate`), and `High` exactly when confidence > 82.0. -/
theorem confidence_range_and_band_cutoffs (p : List ℝ) (r : ℤ)
    (h0 : 0 ≤ r) (h1 : r ≤ 100) :
    60.0 ≤ (calculate_confidence p r).confidence ∧
    (calculate_confidence p r).confidence ≤ 90.0 ∧
    ((calculate_confidence p r).confidenceBand = "Low" ↔
      (calculate_confidence p r).confidence < 72.0) ∧
    ((calculate_confidence p r).confidenceBand = "Moderate" ↔
      (72.0 ≤ (calculate_confidence p r).confidence ∧
       (calculate_confidence p r).confidence ≤ 82.0)) ∧
    ((calculate_confidence p r).confidenceBand = "High" ↔
      82.0 < (calculate_confidence p r).confidence) := by
  have hband := classify_confidence_band_iff (calculate_confidence p r).confidence
  have hconf : (calculate_confidence p r).confidenceBand =
      classify_confidence_band (calculate_confidence p r).confidence := rfl
  have hlo : (60.0 : ℝ) ≤ (calculate_confidence p r).confidence := by
    simp only [calculate_confidence]
    exact le_max_left _ _
  have hhi : (calculate_confidence p r).confidence ≤ 90.0 := by
    simp only [calculate_confidence]
    exact max_le (by norm_num) (min_le_left _ _)
  rw [hconf]
  exact ⟨hlo, hhi, hband.1, hband.2.1, hband.2.2⟩

/-- Claim C4 witness at risk score 50. -/
theorem confidence_range_and_band_cutoffs_witness :
    60.0 ≤ (calculate_confidence [] 50).confidence ∧
    (calculate_confidence [] 50).confidence ≤ 90.0 ∧
    ((calculate_confidence [] 50).confidenceBand = "Low" ↔
      (calculate_confidence [] 50).confidence < 72.0) ∧
    ((calculate_confidence [] 50).confidenceBand = "Moderate" ↔
      (72.0 ≤ (calculate_confidence [] 50).confidence ∧
       (calculate_confidence [] 50).confidence ≤ 82.0)) ∧
    ((calculate_confidence [] 50).confidenceBand = "High" ↔
      82.0 < (calculate_confidence [] 50).confidence) :=
  confidence_range_and_band_cutoffs [] 50 (by decide) (by decide)

/-- Claim C5: at risk score 50 the confidence is 60.0 with band Low, and at
risk scores 0 and 100 it is 90.0 with band High, following
`confidence = round(60 + sqrt(min(|riskScore - 50| / 50, 1.0)) * 30, 1)`. -/
theorem confidence_anchor_values :
    (calculate_confidence [] 50).confidence = 60.0 ∧
    (calculate_confidence [] 50).confidenceBand = "Low" ∧
    (calculate_confidence [] 0).confidence = 90.0 ∧
    (calculate_confidence [] 0).confidenceBand = "High" ∧
    (calculate_confidence [] 100).confidence = 90.0 ∧
    (calculate_confidence [] 100).confidenceBand = "High" := by
  have c50 : (calculate_confidence [] 50).confidence = 60.0 := by
    simp only [calculate_confidence]
    rw [show |((50 : ℤ) : ℝ) - 50| = 0 by norm_num]
    rw [show ((0 : ℝ) / 50.0) = 0 by norm_num]
    rw [show min (0 : ℝ) 1.0 = 0 by norm_num [min_def]]
    rw [Real.sqrt_zero]
    rw [show (60.0 : ℝ) + 0 * (90.0 - 60.0) = ((60 : ℤ) : ℝ) by norm_num]
    rw [round1_intCast]
    norm_num [min_def, max_def]
  have c0 : (calculate_confidence [] 0).confidence = 90.0 := by
    simp only [calculate_confidence]
    rw [show |((0 : ℤ) : ℝ) - 50| = 50 by
      rw [show ((0 : ℤ) : ℝ) - 50 = -(50 : ℝ) by norm_num, abs_neg]
      norm_num [abs_of_nonneg]]
    rw [show ((50 : ℝ) / 50.0) = 1 by norm_num]
    rw [show min (1 : ℝ) 1.0 = 1 by norm_num [min_def]]
    rw [Real.sqrt_one]
    rw [show (60.0 : ℝ) + 1 * (90.0 - 60.0) = ((90 : ℤ) : ℝ) by norm_num]
    rw [round1_intCast]
    norm_num [min_def, max_def]
  have c100 : (calculate_confidence [] 100).confidence = 90.0 := by
    simp only [calculate_confidence]
    rw [show |((100 : ℤ) : ℝ) - 50| = 50 by norm_num [abs_of_nonneg]]
    rw [show ((50 : ℝ) / 50.0) = 1 by norm_num]
    rw [show min (1 : ℝ) 1.0 = 1 by norm_num [min_def]]
    rw [Real.sqrt_one]
    rw [show (60.0 : ℝ) + 1 * (90.0 - 60.0) = ((90 : ℤ) : ℝ) by norm_num]
    rw [round1_intCast]
    norm_num [min_def, max_def]
  have b50 : (calculate_confidence [] 50).confidenceBand = "Low" := by
    have : (calculate_confidence [] 50).confidenceBand =
        classify_confidence_band (calculate_confidence [] 50).confidence := rfl
    rw [this, c50]
    exact (classify_confidence_band_iff 60.0).1.mpr (by norm_num)
  have b0 : (calculate_confidence [] 0).confidenceBand = "High" := by
    have : (calculate_confidence [] 0).confidenceBand =
        classify_confidence_band (calculate_confidence [] 0).confidence := rfl
    rw [this, c0]
    exact (classify_confidence_band_iff 90.0).2.2.mpr (by norm_num)
  have b100 : (calculate_confidence [] 100).confidenceBand = "High" := by
    have : (calculate_confidence [] 100).confidenceBand =
        classify_confidence_band (calculate_confidence [] 100).confidence := rfl
    rw [this, c100]
    exact (classify_confidence_band_iff 90.0).2.2.mpr (by norm_num)
  exact ⟨c50, b50, c0, b0, c100, b100⟩

/-- Claim C6: the probabilities parameter of `calculate_confidence` is never
read — for any two probability inputs and every risk score, the results
coincide, so confidence and band depend only on the risk score. -/
theorem confidence_ignores_probabilities (p1 p2 : List ℝ) (r : ℤ) :
    calculate_confidence p1 r = calculate_confidence p2 r := rfl

/-! Helper lemmas about the error messages of the validator. -/

theorem checkRange_eq (data : InputData) :
    checkRange data =
      firstSome (rangeErr data "age") (firstSome (rangeErr data "bmi")
        (firstSome (rangeErr data "cholesterol") (firstSome (rangeErr data "systolic")
          (firstSome (rangeErr data "diastolic") Option.none)))) := rfl

theorem checkMissing_eq (data : InputData) :
    checkMissing data =
      firstSome (missingErr data "age") (firstSome (missingErr data "bmi")
        (firstSome (missingErr data "cholesterol") (firstSome (missingErr data "systolic")
          (firstSome (missingErr data "diastolic") Option.none)))) := rfl

theorem checkType_eq (data : InputData) :
    checkType data =
      firstSome (typeErr data "age") (firstSome (typeErr data "bmi")
        (firstSome (typeErr data "cholesterol") (firstSome (typeErr data "systolic")
          (firstSome (typeErr data "diastolic") Option.none)))) := rfl

theorem firstSome_ne {a b : Option String} {m : String}
    (ha : a ≠ some m) (hb : b ≠ some m) : firstSome a b ≠ some m := by
  cases a <;> simp_all [firstSome]

theorem missingErr_ne (data : InputData) (f m : String)
    (h : ¬ ("Missing required field: " ++ f) = m) : missingErr data f ≠ some m := by
  unfold missingErr
  split_ifs <;> simp [h]

theorem typeErr_ne (data : InputData) (f m : String)
    (h : ¬ ("Invalid value for \x27" ++ f ++ "\x27: must be a number") = m) :
    typeErr data f ≠ some m := by
  simp only [typeErr]
  split_ifs <;> simp [h]

theorem rangeErr_ne (data : InputData) (f m : String)
    (ha : ¬ AGE_MSG = m) (hr : ¬ rangeMsg f = m) : rangeErr data f ≠ some m := by
  simp only [rangeErr]
  split_ifs <;> simp [ha, hr]

theorem rangeErr_ne_of_ne_age (data : InputData) (f m : String)
    (hf : ¬ f = "age") (hr : ¬ rangeMsg f = m) : rangeErr data f ≠ some m := by
  unfold rangeErr
  rw [if_neg (fun hc => hf hc.1)]
  split_ifs <;> simp [hr]

theorem checkMissing_ne_cross (data : InputData) :
    checkMissing data ≠ some CROSS_MSG := by
  rw [checkMissing_eq]
  refine firstSome_ne (missingErr_ne data "age" _ (by decide))
    (firstSome_ne (missingErr_ne data "bmi" _ (by decide))
      (firstSome_ne (missingErr_ne data "cholesterol" _ (by decide))
        (firstSome_ne (missingErr_ne data "systolic" _ (by decide))
          (firstSome_ne (missingErr_ne data "diastolic" _ (by decide)) (by simp)))))

theorem checkType_ne_cross (data : InputData) :
    checkType data ≠ some CROSS_MSG := by
  rw [checkType_eq]
  refine firstSome_ne (typeErr_ne data "age" _ (by decide))
    (firstSome_ne (typeErr_ne data "bmi" _ (by decide))
      (firstSome_ne (typeErr_ne data "cholesterol" _ (by decide))
        (firstSome_ne (typeErr_ne data "systolic" _ (by decide))
          (firstSome_ne (typeErr_ne data "diastolic" _ (by decide)) (by simp)))))

theorem checkRange_ne_cross (data : InputData) :
    checkRange data ≠ some CROSS_MSG := by
  rw [checkRange_eq]
  refine firstSome_ne (rangeErr_ne data "age" _ (by decide) (by decide))
    (firstSome_ne (rangeErr_ne data "bmi" _ (by decide) (by decide))
      (firstSome_ne (rangeErr_ne data "cholesterol" _ (by decide) (by decide))
        (firstSome_ne (rangeErr_ne data "systolic" _ (by decide) (by decide))
          (firstSome_ne (rangeErr_ne data "diastolic" _ (by decide) (by decide)) (by simp)))))

theorem checkRange_age_msg_iff (data : InputData) :
    checkRange data = some AGE_MSG ↔
      isinstance_int ((getField data "age").getD PyVal.none) = false := by
  rw [checkRange_eq]
  cases hi : isinstance_int ((getField data "age").getD PyVal.none)
  · have h : rangeErr data "age" = some AGE_MSG := by
      unfold rangeErr
      rw [if_pos ⟨rfl, hi⟩]
    simp [firstSome, h]
  · have h : rangeErr data "age" ≠ some AGE_MSG := by
      unfold rangeErr
      rw [if_neg (by simp [hi])]
      split_ifs <;> simp <;> decide
    have hchain : firstSome (rangeErr data "age") (firstSome (rangeErr data "bmi")
        (firstSome (rangeErr data "cholesterol") (firstSome (rangeErr data "systolic")
          (firstSome (rangeErr data "diastolic") Option.none)))) ≠ some AGE_MSG := by
      refine firstSome_ne h
        (firstSome_ne (rangeErr_ne_of_ne_age data "bmi" _ (by decide) (by decide))
          (firstSome_ne (rangeErr_ne_of_ne_age data "cholesterol" _ (by decide) (by decide))
            (firstSome_ne (rangeErr_ne_of_ne_age data "systolic" _ (by decide) (by decide))
              (firstSome_ne (rangeErr_ne_of_ne_age data "diastolic" _ (by decide) (by decide))
                (by simp)))))
    simp [hchain]

/-- Claim C8 (counterexample): the claim says the age-specific message fires
exactly when the age value is not integral; but for age = 30.0 — a float
carrying an integral value, with every other field valid — the code still
fails with the age whole-number message, because it
tests the Python type with `isinstance(value, int)`, not integrality. -/
theorem validate_age_integral_float_counterexample :
    (validate_inputs exAgeFloatWhole).2 = some AGE_MSG ∧
    isIntegralValue (PyVal.float 30) = true ∧
    checkMissing exAgeFloatWhole = Option.none ∧
    checkType exAgeFloatWhole = Option.none := by decide

/-- Claim C8 (amended): when every field is present and numeric non-boolean,
validation fails with the age whole-number message (`AGE_MSG`)
exactly when the age value is not a Python int (any float is rejected, even
an integral-valued one such as 30.0); in particular age = 30.5 is rejected
with this message, age = 30 is accepted, and bmi is not subject to the
integrality check (bmi = 22.5 is accepted). -/
theorem validate_age_must_be_int_type :
    (∀ data : InputData, checkMissing data = Option.none →
      checkType data = Option.none →
      ((validate_inputs data).2 = some AGE_MSG ↔
        isinstance_int ((getField data "age").getD PyVal.none) = false)) ∧
    (validate_inputs exAgeHalf).2 = some AGE_MSG ∧
    validate_inputs exAge30 = (true, Option.none) ∧
    validate_inputs exBmiFrac = (true, Option.none) := by
  refine ⟨?_, by decide, by decide, by decide⟩
  intro data hm ht
  have hiff := checkRange_age_msg_iff data
  unfold validate_inputs
  rw [hm, ht]
  cases hr : checkRange data with
  | some e =>
      rw [hr] at hiff
      constructor
      · intro h
        exact hiff.mp h
      · intro h
        exact hiff.mpr h
  | none =>
      rw [hr] at hiff
      have hint : ¬ isinstance_int ((getField data "age").getD PyVal.none) = false :=
        fun hf => by simpa using hiff.mpr hf
      constructor
      · intro h
        have h2 : (if toRat ((getField data "diastolic").getD PyVal.none) ≥
            toRat ((getField data "systolic").getD PyVal.none) then
              ((false : Bool), some CROSS_MSG)
            else (true, Option.none)).2 = some AGE_MSG := h
        split_ifs at h2 with hge
        all_goals first
          | exact absurd h2 (by decide)
          | exact absurd h2 (by simp)
      · intro h
        exact absurd h hint

/-- Claim C8 (witness of the amended claim): the payload with age = 30.5 and
all other fields valid passes the presence and type phases, and validation
indeed fails with the age-specific message. -/
theorem validate_age_must_be_int_type_witness :
    (validate_inputs exAgeHalf).2 = some AGE_MSG :=
  (validate_age_must_be_int_type.1 exAgeHalf (by decide) (by decide)).mpr (by decide)

/-- Claim C9: validation fails with "diastolic must be less than systolic"
exactly when all per-field checks (presence, type, integrality, range) pass
and diastolic ≥ systolic; validated data therefore always satisfies
diastolic < systolic, and the equal pair 90/90 is rejected with this
message. -/
theorem validate_cross_field_check :
    (∀ data : InputData,
      ((validate_inputs data).2 = some CROSS_MSG ↔
        (checkMissing data = Option.none ∧ checkType data = Option.none ∧
         checkRange data = Option.none ∧
         toRat ((getField data "systolic").getD PyVal.none) ≤
           toRat ((getField data "diastolic").getD PyVal.none)))) ∧
    (∀ data : InputData, (validate_inputs data).1 = true →
      toRat ((getField data "diastolic").getD PyVal.none) <
        toRat ((getField data "systolic").getD PyVal.none)) ∧
    validate_inputs exEqualBP = (false, some CROSS_MSG) := by
  refine ⟨?_, ?_, by decide⟩
  · intro data
    constructor
    · intro h
      unfold validate_inputs at h
      cases hm : checkMissing data with
      | some e =>
          rw [hm] at h
          simp only [Option.some.injEq] at h
          exact absurd (hm.trans (by rw [h])) (checkMissing_ne_cross data)
      | none =>
      rw [hm] at h
      cases ht : checkType data with
      | some e =>
          rw [ht] at h
          simp only [Option.some.injEq] at h
          exact absurd (ht.trans (by rw [h])) (checkType_ne_cross data)
      | none =>
      rw [ht] at h
      cases hr : checkRange data with
      | some e =>
          rw [hr] at h
          simp only [Option.some.injEq] at h
          exact absurd (hr.trans (by rw [h])) (checkRange_ne_cross data)
      | none =>
      rw [hr] at h
      have h2 : (if toRat ((getField data "diastolic").getD PyVal.none) ≥
          toRat ((getField data "systolic").getD PyVal.none) then
            ((false : Bool), some CROSS_MSG)
          else (true, Option.none)).2 = some CROSS_MSG := h
      split_ifs at h2 with hge
      all_goals first
        | exact ⟨rfl, rfl, rfl, hge⟩
        | simp at h2
    · rintro ⟨hm, ht, hr, hle⟩
      unfold validate_inputs
      rw [hm, ht, hr]
      show (if toRat ((getField data "diastolic").getD PyVal.none) ≥
          toRat ((getField data "systolic").getD PyVal.none) then
            ((false : Bool), some CROSS_MSG)
          else (true, Option.none)).2 = some CROSS_MSG
      rw [if_pos hle]
  · intro data h
    unfold validate_inputs at h
    cases hm : checkMissing data with
    | some e => rw [hm] at h; simp at h
    | none =>
    rw [hm] at h
    cases ht : checkType data with
    | some e => rw [ht] at h; simp at h
    | none =>
    rw [ht] at h
    cases hr : checkRange data with
    | some e => rw [hr] at h; simp at h
    | none =>
    rw [hr] at h
    have h2 : (if toRat ((getField data "diastolic").getD PyVal.none) ≥
        toRat ((getField data "systolic").getD PyVal.none) then
          ((false : Bool), some CROSS_MSG)
        else (true, Option.none)).1 = true := h
    split_ifs at h2 with hge
    all_goals first
      | exact lt_of_not_ge hge
      | simp at h2

/-- Claim C9 (witness): a concrete fully valid payload (age 30, bmi 22,
cholesterol 180, systolic 110, diastolic 70) validates successfully, so by
the theorem its diastolic value is below its systolic value. -/
theorem validate_cross_field_check_witness :
    toRat ((getField exAge30 "diastolic").getD PyVal.none) <
      toRat ((getField exAge30 "systolic").getD PyVal.none) :=
  validate_cross_field_check.2.1 exAge30 (by decide)

end CDSS
